import Mathlib

/-!
Verification of the hook enable/disable state machine of the
`claude-hooks` CLI (source: `index.js`, functions `listHooks`,
`showStatus`, `enableHook`, `disableHook`, `removeHook` and the CLI
command dispatch).

The filesystem is modelled as an association list from file names to file
contents.  All files the controller touches live in one flat directory
(`~/.claude/hooks/`), so paths are modelled relative to that directory:
the entry for hook `h` is keyed `h.py`, its backup `h.py.original`, and
the legacy disabled marker `h.py.disabled`.  File permission bits are not
modelled (`chmodSync` only sets the executable bit and no claim depends
on it).  Console output is modelled as a list of messages with the chalk
colour codes stripped.
-/

set_option maxRecDepth 8192

/-- A filesystem snapshot of the hooks directory: file name ↦ content. -/
abbrev FS : Type := List (String × String)

/-- Model of `fs.readFileSync` (as `Option`): first binding of the name wins. -/
def fsRead : FS → String → Option String
  | [], _ => none
  | (q, c) :: t, p => if p = q then some c else fsRead t p

/-- Model of `fs.existsSync`. -/
def fsExists (fs : FS) (p : String) : Bool :=
  (fsRead fs p).isSome

/-- Model of `fs.unlinkSync`: drop every binding of the name. -/
def fsRemove : FS → String → FS
  | [], _ => []
  | (q, c) :: t, p => if p = q then fsRemove t p else (q, c) :: fsRemove t p

/-- Model of `fs.writeFileSync`: replace any existing binding. -/
def fsWrite (fs : FS) (p c : String) : FS :=
  (p, c) :: fsRemove fs p

/-- Model of `fs.renameSync`.  POSIX rename silently replaces an existing
destination.  Every call site in the modelled code guards the source with
`fs.existsSync`, so the missing-source branch (which would throw `ENOENT`)
is never reached and is modelled as the identity. -/
def fsRename (fs : FS) (src dst : String) : FS :=
  match fsRead fs src with
  | none => fs
  | some c => fsWrite (fsRemove fs src) dst c

/-- Path of the active hook file: `<name>.py` (relative to the hooks dir). -/
def hookPath (n : String) : String := n ++ (".py")

/-- Path of the backup holding a disabled hook: `<name>.py.original`. -/
def originalPath (n : String) : String := n ++ (".py.original")

/-- Legacy disabled marker path: `<name>.py.disabled`. -/
def disabledPath (n : String) : String := n ++ (".py.disabled")

/-- Substring test on char lists, model of JavaScript `String.includes`. -/
def containsSub : List Char → List Char → Bool
  | [], sub => sub.isEmpty
  | s@(_ :: t), sub => sub.isPrefixOf s || containsSub t sub

/-- Model of JavaScript `s.includes(sub)`. -/
def strIncludes (s sub : String) : Bool :=
  containsSub s.data sub.data

/-- Model of JavaScript `s.endsWith(suf)`: the reversed suffix is a prefix
of the reversed string. -/
def strEndsWith (s suf : String) : Bool :=
  suf.data.reverse.isPrefixOf s.data.reverse

/-- The marker string `enableHook`/`listHooks` look for to recognise a stub. -/
def stubMarker : String := "Stub for disabled hook:"

/-- Opening of the stub template written by `disableHook`, up to the first
interpolation of the hook name. -/
def stubHead : String :=
  "#!/usr/bin/env python3\n\x22\x22\x22\nStub for disabled hook: "

/-- Stub template between the first and second interpolation of the name. -/
def stubMid1 : String :=
  "\nThis hook has been disabled but remains in place to prevent errors.\nTo re-enable, use: claude-hooks enable "

/-- Stub template between the second and third interpolation of the name. -/
def stubMid2 : String :=
  "\n\x22\x22\x22\nimport json\nimport sys\n\n# Read input to prevent broken pipe errors\ntry:\n    json.load(sys.stdin)\nexcept:\n    pass\n\n# Exit cleanly with a message\nprint(f\x22Hook \x27"

/-- Stub template after the third interpolation of the name. -/
def stubTail : String :=
  "\x27 is currently disabled\x22, file=sys.stderr)\nsys.exit(0)\n"

/-- The stub file content `disableHook` writes at the active path
(the template literal in `disableHook`, with `hookName` interpolated). -/
def stubContent (n : String) : String :=
  stubHead ++ (n ++ (stubMid1 ++ (n ++ (stubMid2 ++ (n ++ stubTail)))))

/-- Console output: `out` for `console.log`, `err` for `console.error`,
with chalk colouring stripped. -/
inductive Msg where
  | out : String → Msg
  | err : String → Msg
deriving DecidableEq

/-- Hook indicator rendered by `listHooks` for each registry entry. -/
inductive HookIndicator where
  | enabled
  | disabled
  | notInstalled
deriving DecidableEq

/-- Per-hook status classification of `listHooks` (index.js lines 599-626):
backup present, or legacy `.disabled` present, or a stub at the active
path ⇒ disabled dot; a real file at the active path ⇒ enabled dot;
nothing ⇒ not installed.  The `none` branch of the inner match mirrors the
`catch` around `readFileSync`, which renders the enabled dot. -/
def listStatus (fs : FS) (n : String) : HookIndicator :=
  if fsExists fs (originalPath n) then HookIndicator.disabled
  else if fsExists fs (disabledPath n) then HookIndicator.disabled
  else if fsExists fs (hookPath n) then
    match fsRead fs (hookPath n) with
    | some content =>
        if strIncludes content stubMarker then HookIndicator.disabled
        else HookIndicator.enabled
    | none => HookIndicator.enabled
  else HookIndicator.notInstalled

/-- Hook counts printed by `showStatus` (index.js lines 684-690):
(number of "enabled" hooks, number of "disabled" hooks), computed purely
from directory entry names: files ending `.py` and not `.disabled` count
as enabled, files ending `.py.disabled` count as disabled. -/
def showStatusCounts (fs : FS) : Nat × Nat :=
  let allFiles := fs.map Prod.fst
  ((allFiles.filter (fun f => strEndsWith f (".py") && !(strEndsWith f (".disabled")))).length,
   (allFiles.filter (fun f => strEndsWith f (".py.disabled"))).length)

/-- Model of `enableHook` (index.js lines 707-756).  The first branch
mirrors the `try` block: `readFileSync` on a missing active path throws,
the `catch` prints `Failed to enable ...` with the system message and the
function returns without renaming the backup.  The final `(fs, [])`
branch is unreachable (guarded by `existsSync`). -/
def enableHook (fs : FS) (n : String) : FS × List Msg :=
  if fsExists fs (originalPath n) then
    match fsRead fs (hookPath n) with
    | none =>
        (fs, [Msg.err (("Failed to enable ") ++ n ++ (": ENOENT: no such file or directory"))])
    | some currentContent =>
        let fs1 := if strIncludes currentContent stubMarker
                   then fsRemove fs (hookPath n) else fs
        (fsRename fs1 (originalPath n) (hookPath n),
         [Msg.out (("✅ Enabled ") ++ n)])
  else if fsExists fs (disabledPath n) then
    (fsRename fs (disabledPath n) (hookPath n),
     [Msg.out (("✅ Enabled ") ++ n)])
  else if fsExists fs (hookPath n) then
    match fsRead fs (hookPath n) with
    | some content =>
        if strIncludes content stubMarker then
          (fs, [Msg.out (("Hook ") ++ n ++ (" is disabled (stub file present)")),
                Msg.out ("This indicates an error in the disable/enable process")])
        else
          (fs, [Msg.out (("Hook ") ++ n ++ (" is already enabled"))])
    | none => (fs, [])
  else
    (fs, [Msg.err (("Hook ") ++ n ++ (" not found")),
          Msg.out ("Run \x22claude-hooks list\x22 to see available hooks")])

/-- Model of `disableHook` (index.js lines 758-806).  `writeFault` injects
an I/O failure of the `writeFileSync` stub-write step (with the system
error message): on failure the `catch` prints `Failed to disable ...` and
the function returns, leaving the rename already performed.  `chmodSync`
only sets permission bits and is not modelled. -/
def disableHook (writeFault : Option String) (fs : FS) (n : String) : FS × List Msg :=
  if fsExists fs (originalPath n) then
    (fs, [Msg.out (("Hook ") ++ n ++ (" is already disabled"))])
  else if !(fsExists fs (hookPath n)) then
    (fs, [Msg.err (("Hook ") ++ n ++ (" not found"))])
  else
    let fs1 := fsRename fs (hookPath n) (originalPath n)
    match writeFault with
    | some emsg =>
        (fs1, [Msg.err (("Failed to disable ") ++ n ++ (": ") ++ emsg)])
    | none =>
        (fsWrite fs1 (hookPath n) (stubContent n),
         [Msg.out (("✅ Disabled ") ++ n),
          Msg.out ("The hook will not run until re-enabled")])

/-- Existence-guarded delete, model of
`if (fs.existsSync(p)) fs.unlinkSync(p)` in `removeHook`. -/
def condRemove (fs : FS) (p : String) : FS :=
  if fsExists fs p then fsRemove fs p else fs

/-- Model of `removeHook` (index.js lines 1033-1065).  `confirm` is the
answer to the inquirer confirmation prompt. -/
def removeHook (confirm : Bool) (fs : FS) (n : String) : FS × List Msg :=
  if !(fsExists fs (hookPath n)) && !(fsExists fs (disabledPath n))
     && !(fsExists fs (originalPath n)) then
    (fs, [Msg.err (("Hook ") ++ n ++ (" not found"))])
  else if !confirm then
    (fs, [Msg.out ("Cancelled")])
  else
    let fs1 := condRemove fs (hookPath n)
    let fs2 := condRemove fs1 (disabledPath n)
    let fs3 := condRemove fs2 (originalPath n)
    (fs3, [Msg.out (("✅ Removed ") ++ n)])

/-- Model of the CLI dispatch for `disable <name>` (index.js lines
256-263): it awaits `disableHook` and falls through the `switch`; no
`process.exit` is reached on this path, so the Node process terminates
with status code 0.  The third component is the process exit code. -/
def cliDisable (fs : FS) (n : String) : FS × List Msg × Nat :=
  let r := disableHook none fs n
  (r.1, r.2, 0)

/-- Outcome of running a Python script: normal fall-through, an unhandled
exception, or `sys.exit` with a status code. -/
inductive PyOutcome (α : Type) where
  | ok : α → PyOutcome α
  | exc : String → PyOutcome α
  | exited : Nat → PyOutcome α
deriving DecidableEq

/-- Semantics of the stub's `try: json.load(sys.stdin) except: pass`
statement: a bare `except: pass` swallows any exception. -/
def pyTryExceptPass (r : Except String Unit) : PyOutcome Unit :=
  match r with
  | Except.ok _ => PyOutcome.ok ()
  | Except.error _ => PyOutcome.ok ()

/-- The line the stub prints to `sys.stderr`. -/
def stubNotice (n : String) : String :=
  ("Hook \x27") ++ (n ++ ("\x27 is currently disabled"))

/-- Execution semantics of the stub script written by `disableHook`,
parametrised by the behaviour `jsonLoad` of Python's `json.load` on the
given standard input (it may return or raise): the guarded load, then the
`print(..., file=sys.stderr)`, then `sys.exit(0)`.  Returns the script
outcome and the lines written to the error stream. -/
def stubRun (n : String) (jsonLoad : String → Except String Unit)
    (stdin : String) : PyOutcome Unit × List String :=
  match pyTryExceptPass (jsonLoad stdin) with
  | PyOutcome.ok _ => (PyOutcome.exited 0, [stubNotice n])
  | PyOutcome.exc e => (PyOutcome.exc e, [])
  | PyOutcome.exited c => (PyOutcome.exited c, [])

/-! ### Basic lemmas about the filesystem model -/

theorem fsRead_fsRemove (fs : FS) (p q : String) :
    fsRead (fsRemove fs p) q = if q = p then none else fsRead fs q := by
  induction fs with
  | nil => simp [fsRemove, fsRead]
  | cons e t ih =>
      obtain ⟨r, c⟩ := e
      by_cases hpr : p = r <;> by_cases hqr : q = r <;> by_cases hqp : q = p <;>
        simp_all [fsRemove, fsRead]

theorem fsRead_fsWrite (fs : FS) (p c q : String) :
    fsRead (fsWrite fs p c) q = if q = p then some c else fsRead fs q := by
  by_cases h : q = p <;> simp [fsWrite, fsRead, fsRead_fsRemove, h]

theorem fsRead_fsRename (fs : FS) (src dst q : String) (c : String)
    (h : fsRead fs src = some c) :
    fsRead (fsRename fs src dst) q =
      if q = dst then some c else if q = src then none else fsRead fs q := by
  unfold fsRename
  rw [h]
  by_cases h1 : q = dst <;> by_cases h2 : q = src <;>
    simp [fsRead_fsWrite, fsRead_fsRemove, h1, h2]

/-! ### The three on-disk names of a hook are pairwise distinct -/

theorem hookPath_ne_originalPath (n : String) : hookPath n ≠ originalPath n := by
  intro h
  have h2 : (hookPath n).data = (originalPath n).data := congrArg String.data h
  simp only [hookPath, originalPath, String.data_append] at h2
  have h3 := List.append_cancel_left h2
  exact absurd h3 (by decide)

theorem hookPath_ne_disabledPath (n : String) : hookPath n ≠ disabledPath n := by
  intro h
  have h2 : (hookPath n).data = (disabledPath n).data := congrArg String.data h
  simp only [hookPath, disabledPath, String.data_append] at h2
  have h3 := List.append_cancel_left h2
  exact absurd h3 (by decide)

theorem originalPath_ne_disabledPath (n : String) :
    originalPath n ≠ disabledPath n := by
  intro h
  have h2 : (originalPath n).data = (disabledPath n).data := congrArg String.data h
  simp only [originalPath, disabledPath, String.data_append] at h2
  have h3 := List.append_cancel_left h2
  exact absurd h3 (by decide)

/-! ### Substring and suffix lemmas -/

theorem isPrefixOf_append_self (l r : List Char) : l.isPrefixOf (l ++ r) = true := by
  induction l with
  | nil => simp [List.isPrefixOf]
  | cons a t ih => simp [List.isPrefixOf, ih]

theorem isPrefixOf_of_isPrefixOf_append (l s t : List Char)
    (h : l.isPrefixOf s = true) : l.isPrefixOf (s ++ t) = true := by
  induction l generalizing s with
  | nil => simp [List.isPrefixOf]
  | cons a l' ih =>
      cases s with
      | nil => simp [List.isPrefixOf] at h
      | cons b s' =>
          simp only [List.isPrefixOf, Bool.and_eq_true] at h
          simp only [List.cons_append, List.isPrefixOf, Bool.and_eq_true]
          exact ⟨h.1, ih s' h.2⟩

theorem containsSub_nil (s : List Char) : containsSub s [] = true := by
  cases s <;> simp [containsSub, List.isPrefixOf]

theorem containsSub_append_left (a b sub : List Char)
    (h : containsSub a sub = true) : containsSub (a ++ b) sub = true := by
  induction a with
  | nil =>
      simp only [containsSub] at h
      have : sub = [] := by simpa using h
      subst this
      exact containsSub_nil b
  | cons x a' ih =>
      simp only [containsSub, Bool.or_eq_true] at h
      rcases h with h | h
      · simp only [List.cons_append, containsSub, Bool.or_eq_true]
        exact Or.inl (isPrefixOf_of_isPrefixOf_append _ _ _ h)
      · simp only [List.cons_append, containsSub, Bool.or_eq_true]
        exact Or.inr (ih h)

theorem containsSub_append_right (a b sub : List Char)
    (h : containsSub b sub = true) : containsSub (a ++ b) sub = true := by
  induction a with
  | nil => simpa using h
  | cons x a' ih => simp [containsSub, ih]

theorem containsSub_append_middle (a sub b : List Char) :
    containsSub (a ++ (sub ++ b)) sub = true := by
  apply containsSub_append_right
  cases sub with
  | nil => exact containsSub_nil _
  | cons y t =>
      simp [containsSub, List.isPrefixOf, isPrefixOf_append_self]

theorem stubContent_has_marker (n : String) :
    strIncludes (stubContent n) stubMarker = true := by
  unfold strIncludes stubContent
  rw [String.data_append]
  apply containsSub_append_left
  decide

theorem ipo_cons_false (a b : Char) (l m : List Char) (h : (a == b) = false) :
    (a :: l).isPrefixOf (b :: m) = false := by
  simp [List.isPrefixOf, h]

theorem strEndsWith_append (n suf : String) : strEndsWith (n ++ suf) suf = true := by
  unfold strEndsWith
  rw [String.data_append, List.reverse_append]
  exact isPrefixOf_append_self _ _

theorem strEndsWith_mismatch (n s suf : String) (a b : Char) (la lb : List Char)
    (hs : s.data.reverse = a :: la) (hsuf : suf.data.reverse = b :: lb)
    (h : (b == a) = false) : strEndsWith (n ++ s) suf = false := by
  unfold strEndsWith
  rw [String.data_append, List.reverse_append, hs, List.cons_append, hsuf]
  exact ipo_cons_false b a lb (la ++ n.data.reverse) h

/-! ### Behaviour of `disableHook` and `enableHook` on the main branches -/

theorem disableHook_none_active (n C : String) (fs : FS)
    (hA : fsRead fs (hookPath n) = some C)
    (hB : fsRead fs (originalPath n) = none) :
    disableHook none fs n =
      (fsWrite (fsRename fs (hookPath n) (originalPath n)) (hookPath n) (stubContent n),
       [Msg.out (("✅ Disabled ") ++ n),
        Msg.out ("The hook will not run until re-enabled")]) := by
  have h1 : fsExists fs (originalPath n) = false := by simp [fsExists, hB]
  have h2 : fsExists fs (hookPath n) = true := by simp [fsExists, hA]
  simp [disableHook, h1, h2]

theorem disableHook_none_active_reads (n C : String) (fs : FS)
    (hA : fsRead fs (hookPath n) = some C)
    (hB : fsRead fs (originalPath n) = none) :
    fsRead (disableHook none fs n).1 (hookPath n) = some (stubContent n) ∧
    fsRead (disableHook none fs n).1 (originalPath n) = some C := by
  rw [disableHook_none_active n C fs hA hB]
  constructor
  · simp [fsRead_fsWrite]
  · rw [fsRead_fsWrite, if_neg (Ne.symm (hookPath_ne_originalPath n)),
        fsRead_fsRename fs (hookPath n) (originalPath n) (originalPath n) C hA]
    simp

theorem enableHook_backup (n B c : String) (fs : FS)
    (hB : fsRead fs (originalPath n) = some B)
    (hA : fsRead fs (hookPath n) = some c) :
    enableHook fs n =
      (fsRename (if strIncludes c stubMarker then fsRemove fs (hookPath n) else fs)
        (originalPath n) (hookPath n),
       [Msg.out (("✅ Enabled ") ++ n)]) := by
  have h1 : fsExists fs (originalPath n) = true := by simp [fsExists, hB]
  simp [enableHook, h1, hA]

theorem enableHook_backup_reads (n B c : String) (fs : FS)
    (hB : fsRead fs (originalPath n) = some B)
    (hA : fsRead fs (hookPath n) = some c) :
    fsRead (enableHook fs n).1 (hookPath n) = some B ∧
    fsRead (enableHook fs n).1 (originalPath n) = none ∧
    (enableHook fs n).2 = [Msg.out (("✅ Enabled ") ++ n)] := by
  rw [enableHook_backup n B c fs hB hA]
  have hfs1 : fsRead (if strIncludes c stubMarker then fsRemove fs (hookPath n) else fs)
      (originalPath n) = some B := by
    cases hsc : strIncludes c stubMarker <;>
      simp [hsc, fsRead_fsRemove, Ne.symm (hookPath_ne_originalPath n), hB]
  refine ⟨?_, ?_, rfl⟩
  · rw [fsRead_fsRename _ _ _ _ B hfs1]
    simp
  · rw [fsRead_fsRename _ _ _ _ B hfs1,
        if_neg (Ne.symm (hookPath_ne_originalPath n))]
    simp

theorem enableHook_backup_missing (n B : String) (fs : FS)
    (hB : fsRead fs (originalPath n) = some B)
    (hA : fsRead fs (hookPath n) = none) :
    enableHook fs n =
      (fs, [Msg.err (("Failed to enable ") ++ n ++
            (": ENOENT: no such file or directory"))]) := by
  have h1 : fsExists fs (originalPath n) = true := by simp [fsExists, hB]
  simp [enableHook, h1, hA]

theorem disableHook_already (wf : Option String) (n : String) (fs : FS)
    (hB : fsExists fs (originalPath n) = true) :
    disableHook wf fs n =
      (fs, [Msg.out (("Hook ") ++ n ++ (" is already disabled"))]) := by
  simp [disableHook, hB]

theorem disableHook_not_found (wf : Option String) (n : String) (fs : FS)
    (hB : fsRead fs (originalPath n) = none)
    (hA : fsRead fs (hookPath n) = none) :
    disableHook wf fs n =
      (fs, [Msg.err (("Hook ") ++ n ++ (" not found"))]) := by
  simp [disableHook, fsExists, hB, hA]

/-! ### C1: disable; enable round-trip from ACTIVE -/

/-- C1: for every hook `n` in ACTIVE state (active path holds non-stub
content `C`, backup path absent), `disable` then `enable` restores the
active path to exactly `C` with no backup file (and hence no stub)
remaining. -/
theorem claim1_round_trip (n C : String) (fs : FS)
    (hC : strIncludes C stubMarker = false)
    (hA : fsRead fs (hookPath n) = some C)
    (hB : fsRead fs (originalPath n) = none) :
    fsRead (enableHook (disableHook none fs n).1 n).1 (hookPath n) = some C ∧
    fsRead (enableHook (disableHook none fs n).1 n).1 (originalPath n) = none := by
  obtain ⟨hd1, hd2⟩ := disableHook_none_active_reads n C fs hA hB
  obtain ⟨he1, he2, _⟩ :=
    enableHook_backup_reads n C (stubContent n) (disableHook none fs n).1 hd2 hd1
  exact ⟨he1, he2⟩

/-- C1 witness: round-trip at a concrete hook and content. -/
theorem claim1_round_trip_witness :
    fsRead (enableHook (disableHook none
        [(hookPath ("secret-scanner"), ("X"))] ("secret-scanner")).1
        ("secret-scanner")).1 (hookPath ("secret-scanner")) = some ("X") ∧
    fsRead (enableHook (disableHook none
        [(hookPath ("secret-scanner"), ("X"))] ("secret-scanner")).1
        ("secret-scanner")).1 (originalPath ("secret-scanner")) = none :=
  claim1_round_trip ("secret-scanner") ("X")
    [(hookPath ("secret-scanner"), ("X"))] (by decide) (by decide) (by decide)

/-! ### C2: enable from DISABLED (stub+backup convention) -/

/-- C2 counterexample: with the backup present but the active path absent
(a DISABLED state under the claim's "regardless of whether the active
path ... is absent"), `enableHook` does not rename the backup into place:
it reports a failure (the `readFileSync` inside the `try` throws) and the
hook remains DISABLED, not ACTIVE. -/
theorem claim2_counterexample :
    (enableHook [(originalPath ("h"), ("X"))] ("h")).1 =
      [(originalPath ("h"), ("X"))] ∧
    fsRead (enableHook [(originalPath ("h"), ("X"))] ("h")).1 (hookPath ("h")) = none ∧
    (enableHook [(originalPath ("h"), ("X"))] ("h")).2 =
      [Msg.err (("Failed to enable ") ++ ("h") ++
        (": ENOENT: no such file or directory"))] := by
  refine ⟨?_, ?_, ?_⟩ <;> decide

/-- C2 amended: when the backup path exists and the active path also
exists (stub or any other content), `enable` deletes the stub if present
and renames the backup to the active path, reaching ACTIVE; but when the
backup path exists and the active path is absent, `enable` fails with an
error message and performs no filesystem mutation, leaving the hook
DISABLED. -/
theorem claim2_enable_from_disabled (n B c n2 B2 : String) (fs fs2 : FS)
    (hB : fsRead fs (originalPath n) = some B)
    (hA : fsRead fs (hookPath n) = some c)
    (hB2 : fsRead fs2 (originalPath n2) = some B2)
    (hA2 : fsRead fs2 (hookPath n2) = none) :
    (fsRead (enableHook fs n).1 (hookPath n) = some B ∧
     fsRead (enableHook fs n).1 (originalPath n) = none ∧
     (enableHook fs n).2 = [Msg.out (("✅ Enabled ") ++ n)]) ∧
    ((enableHook fs2 n2).1 = fs2 ∧
     (enableHook fs2 n2).2 = [Msg.err (("Failed to enable ") ++ n2 ++
        (": ENOENT: no such file or directory"))]) := by
  refine ⟨enableHook_backup_reads n B c fs hB hA, ?_, ?_⟩
  · rw [enableHook_backup_missing n2 B2 fs2 hB2 hA2]
  · rw [enableHook_backup_missing n2 B2 fs2 hB2 hA2]

/-- C2 witness: concrete instances of both scenarios. -/
theorem claim2_enable_from_disabled_witness :
    (fsRead (enableHook [(hookPath ("h"), stubContent ("h")),
        (originalPath ("h"), ("ORIG"))] ("h")).1 (hookPath ("h")) = some ("ORIG") ∧
     fsRead (enableHook [(hookPath ("h"), stubContent ("h")),
        (originalPath ("h"), ("ORIG"))] ("h")).1 (originalPath ("h")) = none ∧
     (enableHook [(hookPath ("h"), stubContent ("h")),
        (originalPath ("h"), ("ORIG"))] ("h")).2 =
       [Msg.out (("✅ Enabled ") ++ ("h"))]) ∧
    ((enableHook [(originalPath ("g"), ("OG"))] ("g")).1 =
      [(originalPath ("g"), ("OG"))] ∧
     (enableHook [(originalPath ("g"), ("OG"))] ("g")).2 =
       [Msg.err (("Failed to enable ") ++ ("g") ++
         (": ENOENT: no such file or directory"))]) :=
  claim2_enable_from_disabled ("h") ("ORIG") (stubContent ("h")) ("g") ("OG")
    [(hookPath ("h"), stubContent ("h")), (originalPath ("h"), ("ORIG"))]
    [(originalPath ("g"), ("OG"))]
    (by decide) (by decide) (by decide) (by decide)

/-! ### C3: disable on an already-DISABLED hook -/

/-- C3 counterexample: a hook whose active path holds the stub marker but
whose backup path is absent is DISABLED per the claim's definition, yet
`disableHook` does not report "already disabled" and mutates the
filesystem: it renames the stub to the backup path (reporting success). -/
theorem claim3_counterexample :
    strIncludes (stubContent ("h")) stubMarker = true ∧
    fsRead [(hookPath ("h"), stubContent ("h"))] (originalPath ("h")) = none ∧
    (disableHook none [(hookPath ("h"), stubContent ("h"))] ("h")).2 ≠
      [Msg.out (("Hook ") ++ ("h") ++ (" is already disabled"))] ∧
    fsRead (disableHook none [(hookPath ("h"), stubContent ("h"))] ("h")).1
      (originalPath ("h")) = some (stubContent ("h")) := by
  refine ⟨?_, ?_, ?_, ?_⟩ <;> decide

/-- C3 amended: `disable` reports "already disabled" and performs no
filesystem mutation exactly when the backup path exists (the stub-marker
half of the claimed DISABLED definition is not checked: with a stub at
the active path and no backup, `disable` proceeds and mutates).  In
particular the second of two consecutive `disable` calls from ACTIVE is
a no-op reporting "already disabled", so the on-disk contents after both
calls equal the contents after one call. -/
theorem claim3_disable_idempotent (n n2 C2 : String) (fs fs2 : FS)
    (hB : fsExists fs (originalPath n) = true)
    (hA2 : fsRead fs2 (hookPath n2) = some C2)
    (hB2 : fsRead fs2 (originalPath n2) = none) :
    (disableHook none fs n =
      (fs, [Msg.out (("Hook ") ++ n ++ (" is already disabled"))])) ∧
    (disableHook none (disableHook none fs2 n2).1 n2 =
      ((disableHook none fs2 n2).1,
       [Msg.out (("Hook ") ++ n2 ++ (" is already disabled"))])) := by
  refine ⟨disableHook_already none n fs hB, ?_⟩
  obtain ⟨_, hd2⟩ := disableHook_none_active_reads n2 C2 fs2 hA2 hB2
  exact disableHook_already none n2 _ (by simp [fsExists, hd2])

/-- C3 witness: concrete instances of both scenarios. -/
theorem claim3_disable_idempotent_witness :
    (disableHook none [(originalPath ("h"), ("O"))] ("h") =
      ([(originalPath ("h"), ("O"))],
       [Msg.out (("Hook ") ++ ("h") ++ (" is already disabled"))])) ∧
    (disableHook none (disableHook none [(hookPath ("g"), ("Y"))] ("g")).1 ("g") =
      ((disableHook none [(hookPath ("g"), ("Y"))] ("g")).1,
       [Msg.out (("Hook ") ++ ("g") ++ (" is already disabled"))])) :=
  claim3_disable_idempotent ("h") ("g") ("Y")
    [(originalPath ("h"), ("O"))] [(hookPath ("g"), ("Y"))]
    (by decide) (by decide) (by decide)

/-! ### C4: `disable <name>` on a hook with no files -/

/-- C4 counterexample: `disable nonexistent-hook` on an empty hooks
directory prints the not-found error and creates no files, but the CLI
dispatch never calls `process.exit` on this path, so the process exit
status is 0 — not non-zero as claimed. -/
theorem claim4_counterexample :
    (cliDisable ([] : FS) ("nonexistent-hook")).2.2 = 0 ∧
    (cliDisable ([] : FS) ("nonexistent-hook")).1 = ([] : FS) ∧
    (cliDisable ([] : FS) ("nonexistent-hook")).2.1 =
      [Msg.err (("Hook ") ++ ("nonexistent-hook") ++ (" not found"))] := by
  refine ⟨?_, ?_, ?_⟩ <;> decide

/-- C4 amended: for every hook name with no file at the active, backup or
legacy path, `disable <name>` prints an error identifying the hook as not
found and creates no files, but the process exits with status code 0 (the
not-found branch of `disableHook` returns without calling
`process.exit`). -/
theorem claim4_disable_not_found (n : String) (fs : FS)
    (hA : fsRead fs (hookPath n) = none)
    (hB : fsRead fs (originalPath n) = none)
    (hL : fsRead fs (disabledPath n) = none) :
    (cliDisable fs n).1 = fs ∧
    (cliDisable fs n).2.1 = [Msg.err (("Hook ") ++ n ++ (" not found"))] ∧
    (cliDisable fs n).2.2 = 0 := by
  unfold cliDisable
  rw [disableHook_not_found none n fs hB hA]
  exact ⟨rfl, rfl, rfl⟩

/-- C4 witness: the amended claim at a concrete missing hook. -/
theorem claim4_disable_not_found_witness :
    (cliDisable ([] : FS) ("ghost")).1 = ([] : FS) ∧
    (cliDisable ([] : FS) ("ghost")).2.1 =
      [Msg.err (("Hook ") ++ ("ghost") ++ (" not found"))] ∧
    (cliDisable ([] : FS) ("ghost")).2.2 = 0 :=
  claim4_disable_not_found ("ghost") ([] : FS) (by decide) (by decide) (by decide)

/-! ### C5: safety of the generated stub script -/

/-- C5: for every hook name, every behaviour of `json.load` on standard
input (returning or raising — covering arbitrary, including malformed,
input), the stub script reads and discards the input without failing,
writes one line to the error stream containing the hook's name and the
word "disabled", and exits with status code 0 with no unhandled
exception. -/
theorem claim5_stub_safety (n : String) (jsonLoad : String → Except String Unit)
    (stdin : String) :
    (stubRun n jsonLoad stdin).1 = PyOutcome.exited 0 ∧
    (stubRun n jsonLoad stdin).2 = [stubNotice n] ∧
    strIncludes (stubNotice n) n = true ∧
    strIncludes (stubNotice n) ("disabled") = true := by
  refine ⟨?_, ?_, ?_, ?_⟩
  · unfold stubRun pyTryExceptPass
    cases jsonLoad stdin <;> rfl
  · unfold stubRun pyTryExceptPass
    cases jsonLoad stdin <;> rfl
  · unfold strIncludes stubNotice
    rw [String.data_append, String.data_append]
    exact containsSub_append_middle _ _ _
  · unfold strIncludes stubNotice
    rw [String.data_append, String.data_append]
    apply containsSub_append_right
    apply containsSub_append_right
    decide

/-! ### C6: list's state query on the legacy convention -/

/-- C6: a hook disabled via the legacy single-suffix convention
(`<name>.py.disabled` present, `<name>.py` absent, no backup) is
classified DISABLED by the state query `listHooks` uses, with no
migration required. -/
theorem claim6_legacy_disabled (n : String) (fs : FS)
    (hL : fsExists fs (disabledPath n) = true)
    (hA : fsRead fs (hookPath n) = none)
    (hB : fsRead fs (originalPath n) = none) :
    listStatus fs n = HookIndicator.disabled := by
  have h1 : fsExists fs (originalPath n) = false := by simp [fsExists, hB]
  simp [listStatus, h1, hL]

/-- C6 witness: concrete legacy-disabled hook. -/
theorem claim6_legacy_disabled_witness :
    listStatus [(disabledPath ("h"), ("L"))] ("h") = HookIndicator.disabled :=
  claim6_legacy_disabled ("h") [(disabledPath ("h"), ("L"))]
    (by decide) (by decide) (by decide)

/-! ### C7: error reporting when the stub write fails mid-disable -/

theorem disableHook_write_fault (n C emsg : String) (fs : FS)
    (hA : fsRead fs (hookPath n) = some C)
    (hB : fsRead fs (originalPath n) = none) :
    disableHook (some emsg) fs n =
      (fsRename fs (hookPath n) (originalPath n),
       [Msg.err (("Failed to disable ") ++ n ++ (": ") ++ emsg)]) := by
  have h1 : fsExists fs (originalPath n) = false := by simp [fsExists, hB]
  have h2 : fsExists fs (hookPath n) = true := by simp [fsExists, hA]
  simp [disableHook, h1, h2]

/-- C7 counterexample: when the stub write fails after the rename
succeeded, the reported error is the generic catch message (hook name
plus the system error), which does not mention the backup path — or even
the `.original` suffix — where the original content now sits, contrary
to the claim that the error names the partially-completed state. -/
theorem claim7_counterexample :
    fsRead (disableHook (some ("boom")) [(hookPath ("h"), ("CONTENT"))] ("h")).1
      (originalPath ("h")) = some ("CONTENT") ∧
    fsRead (disableHook (some ("boom")) [(hookPath ("h"), ("CONTENT"))] ("h")).1
      (hookPath ("h")) = none ∧
    (disableHook (some ("boom")) [(hookPath ("h"), ("CONTENT"))] ("h")).2 =
      [Msg.err (("Failed to disable h: boom"))] ∧
    strIncludes ("Failed to disable h: boom") (originalPath ("h")) = false ∧
    strIncludes ("Failed to disable h: boom") ((".original")) = false := by
  refine ⟨?_, ?_, ?_, ?_, ?_⟩ <;> decide

/-- C7 amended: if the stub-write step of `disable` fails after the
rename step succeeded, the filesystem is left with the original content
at the backup path and nothing at the active path, but the reported
error is only the generic "Failed to disable <name>: <system message>" —
it does not name the partially-completed state. -/
theorem claim7_fault_reporting (n C emsg : String) (fs : FS)
    (hA : fsRead fs (hookPath n) = some C)
    (hB : fsRead fs (originalPath n) = none) :
    fsRead (disableHook (some emsg) fs n).1 (originalPath n) = some C ∧
    fsRead (disableHook (some emsg) fs n).1 (hookPath n) = none ∧
    (disableHook (some emsg) fs n).2 =
      [Msg.err (("Failed to disable ") ++ n ++ (": ") ++ emsg)] := by
  rw [disableHook_write_fault n C emsg fs hA hB]
  refine ⟨?_, ?_, rfl⟩
  · rw [fsRead_fsRename fs (hookPath n) (originalPath n) (originalPath n) C hA]
    simp
  · rw [fsRead_fsRename fs (hookPath n) (originalPath n) (hookPath n) C hA,
        if_neg (hookPath_ne_originalPath n)]
    simp

/-- C7 witness: the amended claim at a concrete hook and fault. -/
theorem claim7_fault_reporting_witness :
    fsRead (disableHook (some ("EACCES")) [(hookPath ("h"), ("C0"))] ("h")).1
      (originalPath ("h")) = some ("C0") ∧
    fsRead (disableHook (some ("EACCES")) [(hookPath ("h"), ("C0"))] ("h")).1
      (hookPath ("h")) = none ∧
    (disableHook (some ("EACCES")) [(hookPath ("h"), ("C0"))] ("h")).2 =
      [Msg.err (("Failed to disable ") ++ ("h") ++ (": ") ++ ("EACCES"))] :=
  claim7_fault_reporting ("h") ("C0") ("EACCES") [(hookPath ("h"), ("C0"))]
    (by decide) (by decide)

/-! ### C8: `status` counting versus `list` classification -/

theorem ew_hookPath_py (n : String) : strEndsWith (hookPath n) (".py") = true := by
  rw [hookPath]
  exact strEndsWith_append n (".py")

theorem ew_hookPath_disabled (n : String) :
    strEndsWith (hookPath n) (".disabled") = false := by
  rw [hookPath]
  exact strEndsWith_mismatch n (".py") (".disabled") 'y' 'd' ['p', '.']
    ['e', 'l', 'b', 'a', 's', 'i', 'd', '.'] (by decide) (by decide) (by decide)

theorem ew_hookPath_pydisabled (n : String) :
    strEndsWith (hookPath n) (".py.disabled") = false := by
  rw [hookPath]
  exact strEndsWith_mismatch n (".py") (".py.disabled") 'y' 'd' ['p', '.']
    ['e', 'l', 'b', 'a', 's', 'i', 'd', '.', 'y', 'p', '.']
    (by decide) (by decide) (by decide)

theorem ew_originalPath_py (n : String) :
    strEndsWith (originalPath n) (".py") = false := by
  rw [originalPath]
  exact strEndsWith_mismatch n (".py.original") (".py") 'l' 'y'
    ['a', 'n', 'i', 'g', 'i', 'r', 'o', '.', 'y', 'p', '.'] ['p', '.']
    (by decide) (by decide) (by decide)

theorem ew_originalPath_pydisabled (n : String) :
    strEndsWith (originalPath n) (".py.disabled") = false := by
  rw [originalPath]
  exact strEndsWith_mismatch n (".py.original") (".py.disabled") 'l' 'd'
    ['a', 'n', 'i', 'g', 'i', 'r', 'o', '.', 'y', 'p', '.']
    ['e', 'l', 'b', 'a', 's', 'i', 'd', '.', 'y', 'p', '.']
    (by decide) (by decide) (by decide)

/-- C8 counterexample: a hook disabled via the stub+backup convention
(stub at the active path, backup at `<name>.py.original`) is rendered
DISABLED by `listHooks`, but `showStatus` counts it among the enabled
hooks: its counters report 1 enabled / 0 disabled for this directory. -/
theorem claim8_counterexample :
    showStatusCounts [(hookPath ("h"), stubContent ("h")),
      (originalPath ("h"), ("X"))] = (1, 0) ∧
    listStatus [(hookPath ("h"), stubContent ("h")),
      (originalPath ("h"), ("X"))] ("h") = HookIndicator.disabled := by
  refine ⟨?_, ?_⟩ <;> decide

/-- C8 amended: `showStatus` does not reuse the state query of
`listHooks`; it counts directory entries by filename suffix, so every
hook disabled via the stub+backup convention is counted as enabled
(1 enabled / 0 disabled for a directory holding just such a hook), even
though `listHooks` classifies the same hook as DISABLED. -/
theorem claim8_status_counts (n X : String) :
    showStatusCounts [(hookPath n, stubContent n), (originalPath n, X)] = (1, 0) ∧
    listStatus [(hookPath n, stubContent n), (originalPath n, X)] n =
      HookIndicator.disabled := by
  constructor
  · simp [showStatusCounts, List.filter, ew_hookPath_py, ew_hookPath_disabled,
      ew_hookPath_pydisabled, ew_originalPath_py, ew_originalPath_pydisabled]
  · have hB : fsRead [(hookPath n, stubContent n), (originalPath n, X)]
        (originalPath n) = some X := by
      simp [fsRead, Ne.symm (hookPath_ne_originalPath n)]
    simp [listStatus, fsExists, hB]

/-! ### C9: enable replaces active content without preserving it -/

/-- C9: (a) when the backup exists and the active path holds content `c`
that does not contain the stub marker, `enable` renames the backup over
the active path: the resulting directory holds only `(hookPath, B)` — the
replaced content `c` is preserved nowhere; (b) when only the legacy
`<name>.py.disabled` exists alongside a real active file, `enable`
renames the legacy file over the active one without error, again leaving
only `(hookPath, L)`. -/
theorem claim9_enable_overwrites (n c B n2 c2 L : String)
    (hc : strIncludes c stubMarker = false) :
    enableHook [(hookPath n, c), (originalPath n, B)] n =
      ([(hookPath n, B)], [Msg.out (("✅ Enabled ") ++ n)]) ∧
    enableHook [(hookPath n2, c2), (disabledPath n2, L)] n2 =
      ([(hookPath n2, L)], [Msg.out (("✅ Enabled ") ++ n2)]) := by
  constructor
  · have hne : originalPath n ≠ hookPath n := Ne.symm (hookPath_ne_originalPath n)
    have hA : fsRead [(hookPath n, c), (originalPath n, B)] (hookPath n) = some c := by
      simp [fsRead]
    have hB : fsRead [(hookPath n, c), (originalPath n, B)] (originalPath n) = some B := by
      simp [fsRead, hne]
    rw [enableHook_backup n B c _ hB hA]
    simp [hc, fsRename, hB, fsWrite, fsRemove, hne]
  · have hne2 : disabledPath n2 ≠ hookPath n2 := Ne.symm (hookPath_ne_disabledPath n2)
    have hne3 : originalPath n2 ≠ hookPath n2 := Ne.symm (hookPath_ne_originalPath n2)
    have hne4 : originalPath n2 ≠ disabledPath n2 := originalPath_ne_disabledPath n2
    have hB2 : fsRead [(hookPath n2, c2), (disabledPath n2, L)] (originalPath n2) = none := by
      simp [fsRead, hne3, hne4]
    have h1 : fsExists [(hookPath n2, c2), (disabledPath n2, L)] (originalPath n2) = false := by
      simp [fsExists, hB2]
    have hD : fsRead [(hookPath n2, c2), (disabledPath n2, L)] (disabledPath n2) = some L := by
      simp [fsRead, hne2]
    have h2 : fsExists [(hookPath n2, c2), (disabledPath n2, L)] (disabledPath n2) = true := by
      simp [fsExists, hD]
    simp [enableHook, h1, h2, fsRename, hD, fsWrite, fsRemove, hne2]

/-- C9 witness: both overwrite scenarios at concrete hooks. -/
theorem claim9_enable_overwrites_witness :
    enableHook [(hookPath ("h"), ("edited")), (originalPath ("h"), ("orig"))] ("h") =
      ([(hookPath ("h"), ("orig"))], [Msg.out (("✅ Enabled ") ++ ("h"))]) ∧
    enableHook [(hookPath ("g"), ("live")), (disabledPath ("g"), ("legacy"))] ("g") =
      ([(hookPath ("g"), ("legacy"))], [Msg.out (("✅ Enabled ") ++ ("g"))]) :=
  claim9_enable_overwrites ("h") ("edited") ("orig") ("g") ("live") ("legacy")
    (by decide)

/-! ### C10: remove deletes all on-disk variants -/

theorem fsRead_condRemove_self (fs : FS) (p : String) :
    fsRead (condRemove fs p) p = none := by
  unfold condRemove
  cases h : fsExists fs p with
  | false =>
      simp only [Bool.false_eq_true, if_false]
      cases hr : fsRead fs p with
      | none => rfl
      | some c => rw [fsExists, hr] at h; simp at h
  | true => simp [fsRead_fsRemove]

theorem fsRead_condRemove_of_none (fs : FS) (p q : String)
    (h : fsRead fs q = none) : fsRead (condRemove fs p) q = none := by
  unfold condRemove
  cases hp : fsExists fs p <;> simp [fsRead_fsRemove, h]

/-- C10: if at least one of the three on-disk variants of a hook exists,
a confirmed `remove` deletes whichever of `<name>.py`,
`<name>.py.disabled` and `<name>.py.original` exist — the resulting state
is ABSENT and the success message is reported (missing variants raise no
error, each delete being existence-guarded); if the confirmation is
declined, no filesystem mutation occurs. -/
theorem claim10_remove (n : String) (fs : FS)
    (hSome : (fsExists fs (hookPath n) || fsExists fs (disabledPath n) ||
              fsExists fs (originalPath n)) = true) :
    fsRead (removeHook true fs n).1 (hookPath n) = none ∧
    fsRead (removeHook true fs n).1 (disabledPath n) = none ∧
    fsRead (removeHook true fs n).1 (originalPath n) = none ∧
    (removeHook true fs n).2 = [Msg.out (("✅ Removed ") ++ n)] ∧
    (removeHook false fs n).1 = fs ∧
    (removeHook false fs n).2 = [Msg.out ("Cancelled")] := by
  have hguard : (!(fsExists fs (hookPath n)) && !(fsExists fs (disabledPath n))
      && !(fsExists fs (originalPath n))) = false := by
    cases h1 : fsExists fs (hookPath n) <;> cases h2 : fsExists fs (disabledPath n) <;>
      cases h3 : fsExists fs (originalPath n) <;> simp_all
  have r1 : fsRead (condRemove fs (hookPath n)) (hookPath n) = none :=
    fsRead_condRemove_self fs (hookPath n)
  have r2 : fsRead (condRemove (condRemove fs (hookPath n)) (disabledPath n))
      (hookPath n) = none := fsRead_condRemove_of_none _ _ _ r1
  have r3 : fsRead (condRemove (condRemove (condRemove fs (hookPath n))
      (disabledPath n)) (originalPath n)) (hookPath n) = none :=
    fsRead_condRemove_of_none _ _ _ r2
  have s2 : fsRead (condRemove (condRemove fs (hookPath n)) (disabledPath n))
      (disabledPath n) = none := fsRead_condRemove_self _ _
  have s3 : fsRead (condRemove (condRemove (condRemove fs (hookPath n))
      (disabledPath n)) (originalPath n)) (disabledPath n) = none :=
    fsRead_condRemove_of_none _ _ _ s2
  have t3 : fsRead (condRemove (condRemove (condRemove fs (hookPath n))
      (disabledPath n)) (originalPath n)) (originalPath n) = none :=
    fsRead_condRemove_self _ _
  refine ⟨?_, ?_, ?_, ?_, ?_, ?_⟩ <;>
    simp [removeHook, hguard, r3, s3, t3]

/-- C10 witness: a confirmed and a declined removal of a hook present in
the stub+backup DISABLED state. -/
theorem claim10_remove_witness :
    fsRead (removeHook true [(hookPath ("h"), stubContent ("h")),
      (originalPath ("h"), ("X"))] ("h")).1 (hookPath ("h")) = none ∧
    fsRead (removeHook true [(hookPath ("h"), stubContent ("h")),
      (originalPath ("h"), ("X"))] ("h")).1 (disabledPath ("h")) = none ∧
    fsRead (removeHook true [(hookPath ("h"), stubContent ("h")),
      (originalPath ("h"), ("X"))] ("h")).1 (originalPath ("h")) = none ∧
    (removeHook true [(hookPath ("h"), stubContent ("h")),
      (originalPath ("h"), ("X"))] ("h")).2 = [Msg.out (("✅ Removed ") ++ ("h"))] ∧
    (removeHook false [(hookPath ("h"), stubContent ("h")),
      (originalPath ("h"), ("X"))] ("h")).1 =
      [(hookPath ("h"), stubContent ("h")), (originalPath ("h"), ("X"))] ∧
    (removeHook false [(hookPath ("h"), stubContent ("h")),
      (originalPath ("h"), ("X"))] ("h")).2 = [Msg.out ("Cancelled")] :=
  claim10_remove ("h")
    [(hookPath ("h"), stubContent ("h")), (originalPath ("h"), ("X"))]
    (by decide)
